import Mathlib

/-
Verification of the TransactionMonitoring repository's rate-metric and
data-quality aggregation logic, shallowly embedded in Lean 4.

The tabular dataset (a pandas DataFrame in the source) is modelled as a
list of column names, a parallel list of column dtypes, and a list of
rows; a cell is null (NaN), a rational number, or a string.  numpy/pandas
true division of counts never raises: dividing by zero yields NaN, which
we model as `none`.  Fallible operations (the `int(...)` conversion on a
possibly-NaN pivot cell) return `Except`.
-/

deriving instance DecidableEq for Except

namespace TM

/-- A cell of the table: NaN/missing, a numeric value, or a string. -/
inductive Value where
  | null : Value
  | num : ℚ → Value
  | str : String → Value
deriving DecidableEq, Repr

/-- The pandas dtype of a column, as used by `select_dtypes` in
`analyze_data_quality` (include=[np.number] / ['object'] / ['datetime']). -/
inductive ColKind where
  | numeric : ColKind
  | text : ColKind
  | datetime : ColKind
deriving DecidableEq, Repr

/-- The in-memory table: column names, their dtypes (parallel list), and rows. -/
structure DataFrame where
  cols : List String
  kinds : List ColKind
  rows : List (List Value)
deriving DecidableEq, Repr

/-- len(df): the number of rows. -/
def DataFrame.nrows (df : DataFrame) : ℕ := df.rows.length

/-- Position of a named column, if present. -/
def colIdx (df : DataFrame) (c : String) : Option ℕ := df.cols.indexOf? c

/-- The cell of row `r` in column `c` (df[c] for one row). -/
def cellOf (df : DataFrame) (c : String) (r : List Value) : Value :=
  match colIdx df c with
  | some i => r.getD i .null
  | none => .null

/-- The column `c` as a list of cells (the Series df[c]). -/
def colCells (df : DataFrame) (c : String) : List Value :=
  df.rows.map (cellOf df c)

/-- numpy/pandas true division of two counts, as in `a / b` with no guard:
division by zero produces NaN (modelled `none`, and only a RuntimeWarning at
run time), never an exception. -/
def npDiv (a b : ℚ) : Option ℚ := if b = 0 then none else some (a / b)

/-- Insert `x` into `l` in front of the first element `y` with `le x y`. -/
def insertBy {α : Type} (le : α → α → Bool) (x : α) : List α → List α
  | [] => [x]
  | y :: ys => if le x y then x :: y :: ys else y :: insertBy le x ys

/-- Insertion sort by the boolean relation `le`; models
`Series.sort_values` (the source only relies on the output being ordered,
never on a tie-breaking policy). -/
def sortBy {α : Type} (le : α → α → Bool) : List α → List α
  | [] => []
  | x :: xs => insertBy le x (sortBy le xs)

/-- Descending-by-rate order used for every `sort_values(ascending=False)`
on a (category, rate) mapping. -/
def rateDesc (a b : String × ℚ) : Bool := decide (b.2 ≤ a.2)

/-- Distinct non-null string keys of a column, as produced by
`df.groupby(c)` (groupby drops NaN keys; key order is irrelevant to every
property proved here, the source always re-sorts or iterates). -/
def strKeys (df : DataFrame) (c : String) : List String :=
  ((colCells df c).filterMap fun v =>
    match v with
    | .str s => some s
    | _ => none).dedup

/-- The rows of the group with key `k` in column `c`. -/
def groupRows (df : DataFrame) (c : String) (k : String) : List (List Value) :=
  df.rows.filter fun r => cellOf df c r = .str k

/-- Number of rows among `rows` whose alert_outcome equals `outcome`
((x == outcome).sum(); a NaN outcome compares unequal). -/
def outcomeCount (df : DataFrame) (rows : List (List Value)) (outcome : String) : ℕ :=
  rows.countP fun r => cellOf df "alert_outcome" r = .str outcome

/-- The groupby lambda `(x == 'false_positive').sum() / len(x) if len(x) > 0 else 0`. -/
def groupFpr (df : DataFrame) (c : String) (k : String) : ℚ :=
  let g := groupRows df c k
  if 0 < g.length then (outcomeCount df g "false_positive" : ℚ) / g.length else 0

/-- df.groupby(c)['alert_outcome'].apply(fpr lambda): every observed key
paired with its group's false-positive rate. -/
def fprBy (df : DataFrame) (c : String) : List (String × ℚ) :=
  (strKeys df c).map fun k => (k, groupFpr df c k)

/-- FPR by country, sorted descending by rate, capped at the top 10
(`.sort_values(ascending=False).head(10)`), shared by
calculate_false_positive_rates, generate_fpr_report and
create_interactive_report. -/
def fprByCountryTop10 (df : DataFrame) : List (String × ℚ) :=
  (sortBy rateDesc (fprBy df "country")).take 10

/-- Result of a calculator that degrades to a printed notice when a
required column is absent: either the skip notice or the computed value.
The source quotes the column name in two of the notices; those quote
characters are elided in the modelled strings. -/
inductive CalcResult (α : Type) where
  | skipped : String → CalcResult α
  | ok : α → CalcResult α
deriving DecidableEq, Repr

/-- The quantities computed by `calculate_false_positive_rates`
(helper/function.py).  Presentation (matplotlib plots, console prints) is
outside the model; each optional breakdown is present exactly when its
column is. -/
structure FprAnalysis where
  total_alerts : ℕ
  false_positives : ℕ
  true_positives : ℕ
  overall_fpr : ℚ
  fpr_by_type : Option (List (String × ℚ))
  fpr_by_risk : Option (List (String × ℚ))
  fpr_by_country_top10 : Option (List (String × ℚ))
deriving DecidableEq, Repr

/-- helper/function.py `calculate_false_positive_rates`: skips with a notice
when alert_outcome is absent; the overall rate is guarded
(`false_positives / total_alerts if total_alerts > 0 else 0`). -/
def calculate_false_positive_rates (df : DataFrame) : CalcResult FprAnalysis :=
  if "alert_outcome" ∈ df.cols then
    let total := df.nrows
    let fp := outcomeCount df df.rows "false_positive"
    .ok
      { total_alerts := total
        false_positives := fp
        true_positives := outcomeCount df df.rows "true_positive"
        overall_fpr := if 0 < total then (fp : ℚ) / total else 0
        fpr_by_type :=
          if "alert_type" ∈ df.cols then some (sortBy rateDesc (fprBy df "alert_type")) else none
        fpr_by_risk :=
          if "customer_risk_tier" ∈ df.cols then
            some (sortBy rateDesc (fprBy df "customer_risk_tier"))
          else none
        fpr_by_country_top10 :=
          if "country" ∈ df.cols then some (fprByCountryTop10 df) else none }
  else .skipped "No alert_outcome column found. Cannot calculate false positive rate."

/-- The quantities of the text report built by `generate_fpr_report`.  The
overall rate is guarded, but the True Positive Rate line of section
1. OVERALL PERFORMANCE divides `true_positives/total_alerts` with no
guard, hence is NaN (`none`) on an empty table.  The by-type and by-risk
sections print the groupby result unsorted; the country section sorts and
caps at 10. -/
structure FprReport where
  total_alerts : ℕ
  false_positives : ℕ
  true_positives : ℕ
  overall_fpr : ℚ
  true_positive_rate_line : Option ℚ
  fpr_by_type : Option (List (String × ℚ))
  fpr_by_risk : Option (List (String × ℚ))
  fpr_by_country_top10 : Option (List (String × ℚ))
deriving DecidableEq, Repr

/-- helper/function.py `generate_fpr_report`. -/
def generate_fpr_report (df : DataFrame) : CalcResult FprReport :=
  if "alert_outcome" ∈ df.cols then
    let total := df.nrows
    let fp := outcomeCount df df.rows "false_positive"
    let tp := outcomeCount df df.rows "true_positive"
    .ok
      { total_alerts := total
        false_positives := fp
        true_positives := tp
        overall_fpr := if 0 < total then (fp : ℚ) / total else 0
        true_positive_rate_line := npDiv tp total
        fpr_by_type := if "alert_type" ∈ df.cols then some (fprBy df "alert_type") else none
        fpr_by_risk :=
          if "customer_risk_tier" ∈ df.cols then some (fprBy df "customer_risk_tier") else none
        fpr_by_country_top10 :=
          if "country" ∈ df.cols then some (fprByCountryTop10 df) else none }
  else .skipped "Cannot generate FPR report: Missing alert_outcome column"

/-- Bucket labels of Section 3 of the interactive report. -/
def binLabels : List String := ["$0-1K", "$1K-5K", "$5K-10K", "$10K-20K", "$20K+"]

/-- The bucket assigned to a numeric amount by
`pd.cut(df['alert_amount_usd'], bins=[0, 1000, 5000, 10000, 20000, inf], labels=labels)`:
with the default `right=True` the bins are the left-open, right-closed
intervals (0,1000], (1000,5000], (5000,10000], (10000,20000], (20000,inf);
a value outside every bin (in particular 0 or a negative amount) gets no
bucket (NaN). -/
def amountBin (x : ℚ) : Option String :=
  if 0 < x ∧ x ≤ 1000 then some "$0-1K"
  else if 1000 < x ∧ x ≤ 5000 then some "$1K-5K"
  else if 5000 < x ∧ x ≤ 10000 then some "$5K-10K"
  else if 10000 < x ∧ x ≤ 20000 then some "$10K-20K"
  else if 20000 < x then some "$20K+"
  else none

/-- The bucket of a cell: a NaN amount gets no bucket. -/
def amountBinOf (v : Value) : Option String :=
  match v with
  | .num q => amountBin q
  | _ => none

/-- Section 3: `df.groupby('amount_bin', observed=True)` aggregating the
true-positive rate and the size of each bucket; `observed=True` drops
buckets with no rows, and rows whose amount got no bucket belong to no
group. -/
def tprByAmount (df : DataFrame) : List (String × ℚ × ℕ) :=
  binLabels.filterMap fun lbl =>
    let g := df.rows.filter fun r => amountBinOf (cellOf df "alert_amount_usd" r) = some lbl
    if 0 < g.length then
      some (lbl, ((outcomeCount df g "true_positive" : ℚ) / g.length, g.length))
    else none

/-- One cell of the Section 4 pivot tables: the (mean of is_tp, count)
pair for a (country, risk-tier) pair, or `none` (both cells NaN) when the
pair has no rows — `pivot_table` fills absent combinations with NaN. -/
def pivotCell (df : DataFrame) (c t : String) : Option (ℚ × ℕ) :=
  let g := df.rows.filter fun r =>
    cellOf df "country" r = .str c ∧ cellOf df "customer_risk_tier" r = .str t
  if 0 < g.length then some ((outcomeCount df g "true_positive" : ℚ) / g.length, g.length)
  else none

/-- The hover-text loop of Section 4: for each (country, tier) cell it
formats the TPR and calls `int(cnt)` on the count cell.  On an absent
pair the count cell is NaN and `int(NaN)` raises
`ValueError: cannot convert float NaN to integer`, aborting the report. -/
def collectCells (df : DataFrame) :
    List (String × String) → Except String (List (String × String × ℚ × ℕ))
  | [] => .ok []
  | (c, t) :: rest =>
    match pivotCell df c t with
    | none => .error "cannot convert float NaN to integer"
    | some (tpr, cnt) =>
      match collectCells df rest with
      | .error e => .error e
      | .ok l => .ok ((c, t, tpr, cnt) :: l)

/-- The full cross product of observed countries with observed risk tiers,
in the row-major order of the hover-text loop. -/
def heatmapPairs (df : DataFrame) : List (String × String) :=
  (strKeys df "country").flatMap fun c =>
    (strKeys df "customer_risk_tier").map fun t => (c, t)

/-- The Section 4 hover-text computation over the whole pivot. -/
def heatmapCells (df : DataFrame) : Except String (List (String × String × ℚ × ℕ)) :=
  collectCells df (heatmapPairs df)

/-- The quantities computed by `create_interactive_report`
(generate_plotly_report.py).  The overall rate
`false_positives / total_alerts` has no zero guard, hence is NaN
(`none`) on an empty table.  HTML/plotly rendering is outside the model. -/
structure InteractiveReport where
  total_alerts : ℕ
  false_positives : ℕ
  true_positives : ℕ
  overall_fpr : Option ℚ
  fpr_by_type : Option (List (String × ℚ))
  fpr_by_risk : Option (List (String × ℚ))
  fpr_by_country_top10 : Option (List (String × ℚ))
  tpr_by_amount : Option (List (String × ℚ × ℕ))
  heatmap_cells : Option (Except String (List (String × String × ℚ × ℕ)))
deriving DecidableEq, Repr

/-- generate_plotly_report.py `create_interactive_report`. -/
def create_interactive_report (df : DataFrame) : CalcResult InteractiveReport :=
  if "alert_outcome" ∈ df.cols then
    .ok
      { total_alerts := df.nrows
        false_positives := outcomeCount df df.rows "false_positive"
        true_positives := outcomeCount df df.rows "true_positive"
        overall_fpr := npDiv (outcomeCount df df.rows "false_positive") df.nrows
        fpr_by_type :=
          if "alert_type" ∈ df.cols then some (sortBy rateDesc (fprBy df "alert_type")) else none
        fpr_by_risk :=
          if "customer_risk_tier" ∈ df.cols then
            some (sortBy rateDesc (fprBy df "customer_risk_tier"))
          else none
        fpr_by_country_top10 :=
          if "country" ∈ df.cols then some (fprByCountryTop10 df) else none
        tpr_by_amount :=
          if "alert_amount_usd" ∈ df.cols then some (tprByAmount df) else none
        heatmap_cells :=
          if "country" ∈ df.cols ∧ "customer_risk_tier" ∈ df.cols then
            some (heatmapCells df)
          else none }
  else .skipped "Cannot create report: Missing alert_outcome column"

/-- df[col].isnull().sum() for one column. -/
def missingCount (cells : List Value) : ℕ := cells.countP fun v => v = Value.null

/-- Per-column missing percentage `(missing_counts / len(df)) * 100` — no
zero guard, so every percentage of a 0-row table is NaN (`none`). -/
def missingPcts (df : DataFrame) : List (String × Option ℚ) :=
  df.cols.map fun c => (c, (npDiv (missingCount (colCells df c)) df.nrows).map (· * 100))

/-- df.duplicated().sum(): rows equal to an earlier row (pandas also pairs
NaN with NaN here, as Lean equality does). -/
def dupRowCount (df : DataFrame) : ℕ := df.nrows - df.rows.dedup.length

/-- Columns of a given dtype, in column order (df.select_dtypes). -/
def colsOfKind (df : DataFrame) (k : ColKind) : List String :=
  (df.cols.zip df.kinds).filterMap fun p => if p.2 = k then some p.1 else none

/-- The non-null numeric values of a column (what dropna-based reductions
such as `quantile`, `min`, `max` see). -/
def numVals (cells : List Value) : List ℚ :=
  cells.filterMap fun v =>
    match v with
    | .num q => some q
    | _ => none

/-- Series.quantile(q) with the default linear interpolation: drop NaN,
sort ascending, take position h = q*(n-1) and interpolate between the
neighbouring order statistics.  The n = 0 case is never reached by the
analyzer (it guards on a non-null value existing); 0 is a totality
artifact. -/
def quantileLinear (vals : List ℚ) (q : ℚ) : ℚ :=
  let s := sortBy (fun a b : ℚ => decide (a ≤ b)) vals
  let n := s.length
  if n = 0 then 0
  else
    let h : ℚ := q * (n - 1)
    let i : ℕ := (Int.floor h).toNat
    let lo := s.getD i 0
    let hi := s.getD (min (i + 1) (n - 1)) 0
    lo + (h - i) * (hi - lo)

/-- df[col] < b for one cell: NaN (and any non-numeric cell) compares False. -/
def valLt (v : Value) (b : ℚ) : Bool :=
  match v with
  | .num q => decide (q < b)
  | _ => false

/-- b < df[col] for one cell: NaN compares False. -/
def valGt (v : Value) (b : ℚ) : Bool :=
  match v with
  | .num q => decide (b < q)
  | _ => false

/-- Series.min() over the non-null values (nonempty under the analyzer's
guard; 0 is a totality artifact). -/
def minVal (vals : List ℚ) : ℚ :=
  match vals with
  | [] => 0
  | x :: xs => xs.foldl min x

/-- Series.max() over the non-null values. -/
def maxVal (vals : List ℚ) : ℚ :=
  match vals with
  | [] => 0
  | x :: xs => xs.foldl max x

/-- The per-column outlier record of `analyze_data_quality`. -/
structure OutlierInfo where
  outlier_count : ℕ
  outlier_percentage : Option ℚ
  lower_bound : ℚ
  upper_bound : ℚ
  min_value : ℚ
  max_value : ℚ
deriving DecidableEq, Repr

/-- The IQR outlier analysis of one numeric column: Q1/Q3 by linear
interpolation, bounds Q1 - 1.5*IQR and Q3 + 1.5*IQR, outliers the rows
with `df[col] < lower` or `df[col] > upper` (a NaN cell satisfies
neither), percentage over len(df) — every row of the table, not just the
non-null ones. -/
def outlierInfoFor (nrows : ℕ) (cells : List Value) : OutlierInfo :=
  let vals := numVals cells
  let q1 := quantileLinear vals (1 / 4)
  let q3 := quantileLinear vals (3 / 4)
  let iqr := q3 - q1
  let lb := q1 - 3 / 2 * iqr
  let ub := q3 + 3 / 2 * iqr
  let cnt := cells.countP fun v => valLt v lb || valGt v ub
  { outlier_count := cnt
    outlier_percentage := (npDiv cnt nrows).map (· * 100)
    lower_bound := lb
    upper_bound := ub
    min_value := minVal vals
    max_value := maxVal vals }

/-- The outlier section: one entry per numeric column that has at least
one non-null value (`if df[col].notna().sum() > 0`). -/
def outlierEntries (df : DataFrame) : List (String × OutlierInfo) :=
  (colsOfKind df .numeric).filterMap fun c =>
    let cells := colCells df c
    if 0 < (numVals cells).length then some (c, outlierInfoFor df.nrows cells) else none

/-- Whether the character list `s` starts with `t`. -/
def startsWithChars (t s : List Char) : Bool :=
  match t, s with
  | [], _ => true
  | _ :: _, [] => false
  | c :: cs, d :: ds => c == d && startsWithChars cs ds

/-- Whether `t` occurs as a contiguous run inside `s` (Python `t in s`). -/
def occursIn (t : List Char) : List Char → Bool
  | [] => t.isEmpty
  | c :: cs => startsWithChars t (c :: cs) || occursIn t cs

/-- Whether a column name contains "amount" or "value", case-insensitively
(`'amount' in col.lower() or 'value' in col.lower()`). -/
def hasAmountName (c : String) : Bool :=
  occursIn "amount".data (c.data.map Char.toLower) ||
    occursIn "value".data (c.data.map Char.toLower)

/-- The inconsistency section: negative counts of numeric amount/value
columns, then per text column the empty-string count and the
whitespace-only excess, in source order, keeping only positive entries. -/
def inconsistencyEntries (df : DataFrame) : List (String × ℕ) :=
  (df.cols.filterMap fun c =>
    if hasAmountName c ∧ c ∈ colsOfKind df .numeric then
      let n := (colCells df c).countP fun v => valLt v 0
      if 0 < n then some (c ++ "_negative_values", n) else none
    else none) ++
  ((colsOfKind df .text).flatMap fun c =>
    let cells := colCells df c
    let empties := cells.countP fun v => v = Value.str ""
    let ws := cells.countP fun v =>
      match v with
      | .str s => s.data.all Char.isWhitespace
      | _ => false
    (if 0 < empties then [(c ++ "_empty_strings", empties)] else []) ++
      (if empties < ws then [(c ++ "_whitespace_only", ws - empties)] else []))

/-- A summary flag.  The source appends formatted strings; the model keeps
the structured content (severity, column/issue, the percentage or count
interpolated into the message). -/
inductive Flag where
  | highMissing : String → ℚ → Flag
  | moderateMissing : String → ℚ → Flag
  | highDuplicates : ℚ → Flag
  | moderateDuplicates : ℚ → Flag
  | highOutliers : String → ℚ → Flag
  | inconsistency : String → ℕ → Flag
deriving DecidableEq, Repr

/-- Missing-data flags for one column: `if pct > 50 ... elif pct > 20 ...`;
a NaN percentage satisfies neither comparison. -/
def missingFlagsFor (c : String) (p : Option ℚ) : List Flag :=
  match p with
  | none => []
  | some q => if 50 < q then [.highMissing c q] else if 20 < q then [.moderateMissing c q] else []

/-- Duplicate flags: `if pct > 10 ... elif pct > 5 ...`. -/
def dupFlagsFor (p : Option ℚ) : List Flag :=
  match p with
  | none => []
  | some q =>
    if 10 < q then [.highDuplicates q] else if 5 < q then [.moderateDuplicates q] else []

/-- Outlier flags: `if pct > 10`. -/
def outlierFlagsFor (c : String) (p : Option ℚ) : List Flag :=
  match p with
  | none => []
  | some q => if 10 < q then [.highOutliers c q] else []

/-- Section 6 of `analyze_data_quality`: flags in the fixed order
missing → duplicates → outliers → inconsistencies. -/
def generateFlags (missing : List (String × Option ℚ)) (dup : Option ℚ)
    (outl : List (String × OutlierInfo)) (inc : List (String × ℕ)) : List Flag :=
  (missing.flatMap fun p => missingFlagsFor p.1 p.2) ++ dupFlagsFor dup ++
    (outl.flatMap fun p => outlierFlagsFor p.1 p.2.outlier_percentage) ++
    (inc.map fun p => .inconsistency p.1 p.2)

/-- dataset_info (memory_usage, an environment-dependent byte count, is
outside the data model). -/
structure DatasetInfo where
  total_rows : ℕ
  total_columns : ℕ
deriving DecidableEq, Repr

/-- The missing_data section; the two dicts keep only the strictly
positive entries (a NaN percentage fails `> 0` and is dropped). -/
structure MissingData where
  columns_with_missing : List (String × ℕ)
  missing_percentages : List (String × ℚ)
  total_missing_values : ℕ
  rows_with_any_missing : ℕ
deriving DecidableEq, Repr

/-- The duplicates section; the percentage `(dup / len(df)) * 100` has no
zero guard. -/
structure DuplicateData where
  duplicate_rows : ℕ
  duplicate_percentage : Option ℚ
  unique_rows : ℕ
deriving DecidableEq, Repr

/-- The data_types section (dtype names themselves are presentation). -/
structure DataTypes where
  numeric_columns : List String
  categorical_columns : List String
  datetime_columns : List String
deriving DecidableEq, Repr

/-- The dictionary returned by `analyze_data_quality`. -/
structure QualityReport where
  dataset_info : DatasetInfo
  missing_data : MissingData
  duplicates : DuplicateData
  data_types : DataTypes
  outliers : List (String × OutlierInfo)
  inconsistencies : List (String × ℕ)
  summary_flags : List Flag
deriving DecidableEq, Repr

/-- helper/function.py `analyze_data_quality`, with the table threaded as
explicit state: every step of the source only reads `df`, so the returned
table is the input. -/
def analyze_data_quality_st (df : DataFrame) : QualityReport × DataFrame :=
  let missingP := missingPcts df
  let outl := outlierEntries df
  let inc := inconsistencyEntries df
  let dupPct := (npDiv (dupRowCount df) df.nrows).map (· * 100)
  ({ dataset_info := { total_rows := df.nrows, total_columns := df.cols.length }
     missing_data :=
      { columns_with_missing :=
          df.cols.filterMap fun c =>
            let m := missingCount (colCells df c)
            if 0 < m then some (c, m) else none
        missing_percentages :=
          missingP.filterMap fun p =>
            match p.2 with
            | some q => if 0 < q then some (p.1, q) else none
            | none => none
        total_missing_values := (df.cols.map fun c => missingCount (colCells df c)).sum
        rows_with_any_missing :=
          df.rows.countP fun r => df.cols.any fun c => cellOf df c r = Value.null }
     duplicates :=
      { duplicate_rows := dupRowCount df
        duplicate_percentage := dupPct
        unique_rows := df.rows.dedup.length }
     data_types :=
      { numeric_columns := colsOfKind df .numeric
        categorical_columns := colsOfKind df .text
        datetime_columns := colsOfKind df .datetime }
     outliers := outl
     inconsistencies := inc
     summary_flags := generateFlags missingP dupPct outl inc }, df)

/-- The quality report alone. -/
def analyze_data_quality (df : DataFrame) : QualityReport :=
  (analyze_data_quality_st df).1

theorem mem_insertBy {α : Type} (le : α → α → Bool) (x y : α) :
    ∀ l : List α, y ∈ insertBy le x l → y = x ∨ y ∈ l := by
  intro l
  induction l with
  | nil =>
    intro h
    simpa [insertBy] using h
  | cons z zs ih =>
    intro h
    simp only [insertBy] at h
    split at h
    · rcases List.mem_cons.mp h with h | h
      · exact Or.inl h
      · exact Or.inr h
    · rcases List.mem_cons.mp h with h | h
      · exact Or.inr (List.mem_cons.mpr (Or.inl h))
      · rcases ih h with h | h
        · exact Or.inl h
        · exact Or.inr (List.mem_cons.mpr (Or.inr h))

theorem pairwise_insertBy {α : Type} (le : α → α → Bool)
    (total : ∀ a b, le a b = true ∨ le b a = true)
    (htrans : ∀ a b c, le a b = true → le b c = true → le a c = true) (x : α) :
    ∀ l : List α, l.Pairwise (fun a b => le a b = true) →
      (insertBy le x l).Pairwise fun a b => le a b = true := by
  intro l
  induction l with
  | nil =>
    intro _
    simp [insertBy]
  | cons z zs ih =>
    intro hp
    rw [List.pairwise_cons] at hp
    obtain ⟨hz, hzs⟩ := hp
    simp only [insertBy]
    split
    case isTrue hle =>
      refine List.Pairwise.cons ?_ (List.Pairwise.cons hz hzs)
      intro y hy
      rcases List.mem_cons.mp hy with rfl | hy
      · exact hle
      · exact htrans x z y hle (hz y hy)
    case isFalse hle =>
      refine List.Pairwise.cons ?_ (ih hzs)
      intro y hy
      rcases mem_insertBy le x y zs hy with heq | hy
      · have hx : le z x = true := by
          rcases total x z with h | h
          · exact absurd h hle
          · exact h
        rw [heq]
        exact hx
      · exact hz y hy

theorem pairwise_sortBy {α : Type} (le : α → α → Bool)
    (total : ∀ a b, le a b = true ∨ le b a = true)
    (htrans : ∀ a b c, le a b = true → le b c = true → le a c = true) :
    ∀ l : List α, (sortBy le l).Pairwise fun a b => le a b = true := by
  intro l
  induction l with
  | nil => simp [sortBy]
  | cons x xs ih => exact pairwise_insertBy le total htrans x _ ih

/-- A two-row table lacking the outcome column. -/
def noOutcomeDf : DataFrame :=
  ⟨["country", "alert_type"], [.text, .text],
   [[.str "US", .str "structuring"], [.str "FR", .str "velocity"]]⟩

/-- A table that has the outcome column but no rows, as loaded from a
headers-only CSV. -/
def emptyOutcomeDf : DataFrame := ⟨["alert_outcome"], [.text], []⟩

/-- C5: on a table lacking alert_outcome, each of the three rate
calculators returns its printed notice and computes nothing; the call is
a no-op, not an error. -/
theorem missing_outcome_column_skips (df : DataFrame) (h : "alert_outcome" ∉ df.cols) :
    calculate_false_positive_rates df =
        .skipped "No alert_outcome column found. Cannot calculate false positive rate." ∧
      generate_fpr_report df =
        .skipped "Cannot generate FPR report: Missing alert_outcome column" ∧
      create_interactive_report df =
        .skipped "Cannot create report: Missing alert_outcome column" := by
  refine ⟨?_, ?_, ?_⟩ <;>
    simp [calculate_false_positive_rates, generate_fpr_report, create_interactive_report, h]

theorem missing_outcome_column_skips_witness :
    "alert_outcome" ∉ noOutcomeDf.cols ∧
      (calculate_false_positive_rates noOutcomeDf =
          .skipped "No alert_outcome column found. Cannot calculate false positive rate." ∧
        generate_fpr_report noOutcomeDf =
          .skipped "Cannot generate FPR report: Missing alert_outcome column" ∧
        create_interactive_report noOutcomeDf =
          .skipped "Cannot create report: Missing alert_outcome column") :=
  ⟨by decide, missing_outcome_column_skips noOutcomeDf (by decide)⟩

/-- C8: for a table with a country column, the FPR-by-country breakdown
has at most 10 entries and is sorted by rate in descending order. -/
theorem country_breakdown_top10_sorted (df : DataFrame) (_h : "country" ∈ df.cols) :
    (fprByCountryTop10 df).length ≤ 10 ∧
      (fprByCountryTop10 df).Pairwise fun a b => b.2 ≤ a.2 := by
  constructor
  · calc (fprByCountryTop10 df).length
        = min 10 (sortBy rateDesc (fprBy df "country")).length := List.length_take ..
      _ ≤ 10 := min_le_left ..
  · have hs : (sortBy rateDesc (fprBy df "country")).Pairwise fun a b => rateDesc a b = true := by
      refine pairwise_sortBy rateDesc ?_ ?_ _
      · intro a b
        rcases le_total b.2 a.2 with hab | hab
        · exact Or.inl (decide_eq_true hab)
        · exact Or.inr (decide_eq_true hab)
      · intro a b c hab hbc
        exact decide_eq_true (le_trans (of_decide_eq_true hbc) (of_decide_eq_true hab))
    have ht := hs.sublist (List.take_sublist 10 (sortBy rateDesc (fprBy df "country")))
    exact ht.imp fun hr => of_decide_eq_true hr

theorem country_breakdown_top10_sorted_witness :
    "country" ∈ noOutcomeDf.cols ∧
      ((fprByCountryTop10 noOutcomeDf).length ≤ 10 ∧
        (fprByCountryTop10 noOutcomeDf).Pairwise fun a b => b.2 ≤ a.2) :=
  ⟨by decide, country_breakdown_top10_sorted noOutcomeDf (by decide)⟩

/-- C1: on the empty table with an alert_outcome column, the two guarded
overall rates are 0 as the claim states, but the True Positive Rate line
of generate_fpr_report and the overall rate of create_interactive_report
have no zero guard: both evaluate 0/0 under numpy semantics and are NaN
(`none`), not 0. -/
theorem unguarded_rates_nan_on_empty :
    calculate_false_positive_rates emptyOutcomeDf =
        .ok { total_alerts := 0, false_positives := 0, true_positives := 0, overall_fpr := 0,
              fpr_by_type := none, fpr_by_risk := none, fpr_by_country_top10 := none } ∧
      generate_fpr_report emptyOutcomeDf =
        .ok { total_alerts := 0, false_positives := 0, true_positives := 0, overall_fpr := 0,
              true_positive_rate_line := none, fpr_by_type := none, fpr_by_risk := none,
              fpr_by_country_top10 := none } ∧
      create_interactive_report emptyOutcomeDf =
        .ok { total_alerts := 0, false_positives := 0, true_positives := 0, overall_fpr := none,
              fpr_by_type := none, fpr_by_risk := none, fpr_by_country_top10 := none,
              tpr_by_amount := none, heatmap_cells := none } := by
  decide

/-- C2: the boundary value 1000 falls into the first bucket, not into
$1K-5K as claimed, and the value 0 falls into no bucket at all — pd.cut
with right=True makes every bin left-open. -/
theorem amount_bucket_boundary_counterexample :
    amountBin 1000 = some "$0-1K" ∧ amountBin 1000 ≠ some "$1K-5K" ∧ amountBin 0 = none := by
  decide

/-- C2 (amended): every strictly positive amount falls into exactly one of
the five labeled buckets, under the left-open right-closed convention of
pd.cut; 1000 belongs to $0-1K and nonpositive amounts to no bucket. -/
theorem amount_bucket_total_on_positive (x : ℚ) (hx : 0 < x) :
    (∃ l ∈ binLabels, amountBin x = some l) ∧ amountBin 1000 = some "$0-1K" := by
  refine ⟨?_, by decide⟩
  unfold amountBin
  split_ifs with h1 h2 h3 h4 h5
  · exact ⟨"$0-1K", by decide, rfl⟩
  · exact ⟨"$1K-5K", by decide, rfl⟩
  · exact ⟨"$5K-10K", by decide, rfl⟩
  · exact ⟨"$10K-20K", by decide, rfl⟩
  · exact ⟨"$20K+", by decide, rfl⟩
  · exfalso
    push_neg at h1 h2 h3 h4
    exact h5 (by linarith [h1 hx, h2 (h1 hx), h3 (h2 (h1 hx)), h4 (h3 (h2 (h1 hx)))])

theorem amount_bucket_total_on_positive_witness :
    (0 : ℚ) < 1500 ∧
      ((∃ l ∈ binLabels, amountBin 1500 = some l) ∧ amountBin 1000 = some "$0-1K") :=
  ⟨by norm_num, amount_bucket_total_on_positive 1500 (by norm_num)⟩

/-- A table whose two rows realize the country-tier pairs (US, High) and
(FR, Low) only, so the pairs (US, Low) and (FR, High) are observed in
neither — their pivot cells are NaN. -/
def heatmapGapDf : DataFrame :=
  ⟨["alert_outcome", "country", "customer_risk_tier"], [.text, .text, .text],
   [[.str "true_positive", .str "US", .str "High"],
    [.str "false_positive", .str "FR", .str "Low"]]⟩

/-- C3: on a table where some (observed country, observed tier) pair has
no rows, the Section 4 hover-text loop calls `int(...)` on the NaN count
cell of that pair and raises ValueError — the report generation fails
instead of reporting the pair as undefined. -/
theorem heatmap_absent_pair_conversion_error :
    (match create_interactive_report heatmapGapDf with
      | .ok r => r.heatmap_cells
      | .skipped _ => none) =
      some (Except.error "cannot convert float NaN to integer") := by
  decide

/-- A 0-row table with a numeric and a text column, as loaded from a
headers-only CSV. -/
def emptyColsDf : DataFrame := ⟨["a", "b"], [.numeric, .text], []⟩

/-- A numeric column that exists but is entirely null. -/
def allNullDf : DataFrame := ⟨["x"], [.numeric], [[.null], [.null]]⟩

/-- C4 counterexample: the ratios of analyze_data_quality carry no
zero-denominator guard — on the 0-row table the duplicate percentage and
every per-column missing percentage are NaN (0/0 under numpy semantics),
not the guarded value 0. -/
theorem quality_zero_rows_unguarded :
    (analyze_data_quality emptyColsDf).duplicates.duplicate_percentage = none ∧
      missingPcts emptyColsDf = [("a", none), ("b", none)] ∧
      (none : Option ℚ) ≠ some 0 := by
  decide

/-- C4 (amended): analyze_data_quality is a total function — on a 0-row
table it returns a complete report with NaN percentages and no flags
(rather than raising), the NaN percentages being dropped from the
missing_percentages dict and triggering no flag because every NaN
comparison is False; and an all-null numeric column is skipped by the
outlier loop, so it produces no outlier entry and no quantile fault. -/
theorem quality_zero_rows_report :
    analyze_data_quality emptyColsDf =
        { dataset_info := { total_rows := 0, total_columns := 2 }
          missing_data :=
            { columns_with_missing := [], missing_percentages := [],
              total_missing_values := 0, rows_with_any_missing := 0 }
          duplicates := { duplicate_rows := 0, duplicate_percentage := none, unique_rows := 0 }
          data_types :=
            { numeric_columns := ["a"], categorical_columns := ["b"], datetime_columns := [] }
          outliers := []
          inconsistencies := []
          summary_flags := [] } ∧
      (analyze_data_quality allNullDf).outliers = [] := by
  decide

/-- The one-column table holding the values 1,2,3,4,5,100. -/
def outlierDemoDf : DataFrame :=
  ⟨["v"], [.numeric],
   [[.num 1], [.num 2], [.num 3], [.num 4], [.num 5], [.num 100]]⟩

/-- The cells of that column. -/
def demoCells : List Value :=
  [.num 1, .num 2, .num 3, .num 4, .num 5, .num 100]

/-- C6: on the numeric column [1,2,3,4,5,100] the analyzer computes
Q1 = 2.25, Q3 = 4.75 (linear interpolation), IQR = 2.5, bounds -1.5 and
8.5, and flags exactly one outlier — the value 100, which exceeds the
upper bound. -/
theorem outlier_iqr_demo :
    quantileLinear [1, 2, 3, 4, 5, 100] (1 / 4) = 9 / 4 ∧
      quantileLinear [1, 2, 3, 4, 5, 100] (3 / 4) = 19 / 4 ∧
      quantileLinear [1, 2, 3, 4, 5, 100] (3 / 4) -
          quantileLinear [1, 2, 3, 4, 5, 100] (1 / 4) = 5 / 2 ∧
      (analyze_data_quality outlierDemoDf).outliers =
        [("v",
          { outlier_count := 1, outlier_percentage := some (50 / 3), lower_bound := -(3 / 2),
            upper_bound := 17 / 2, min_value := 1, max_value := 100 })] ∧
      valGt (.num 100) (17 / 2) = true ∧ valLt (.num 100) (-(3 / 2)) = false := by
  have hsort :
      sortBy (fun a b : ℚ => decide (a ≤ b)) [1, 2, 3, 4, 5, 100] = [1, 2, 3, 4, 5, 100] := by
    decide
  have hq1 : quantileLinear [1, 2, 3, 4, 5, 100] (1 / 4) = 9 / 4 := by
    norm_num [quantileLinear, hsort]
  have hq3 : quantileLinear [1, 2, 3, 4, 5, 100] (3 / 4) = 19 / 4 := by
    norm_num [quantileLinear, hsort]
    norm_num [show Int.toNat 3 = 3 from rfl]
  have hvals : numVals demoCells = [1, 2, 3, 4, 5, 100] := by decide
  have hcells : colCells outlierDemoDf "v" = demoCells := by decide
  have hinfo :
      outlierInfoFor 6 demoCells =
        { outlier_count := 1, outlier_percentage := some (50 / 3), lower_bound := -(3 / 2),
          upper_bound := 17 / 2, min_value := 1, max_value := 100 } := by
    simp only [outlierInfoFor, hvals, hq1, hq3]
    norm_num [demoCells, List.countP, List.countP.go, valLt, valGt, npDiv, minVal, maxVal]
  have hentries :
      (analyze_data_quality outlierDemoDf).outliers =
        [("v", outlierInfoFor 6 demoCells)] := by
    show outlierEntries outlierDemoDf = _
    rw [outlierEntries, show colsOfKind outlierDemoDf .numeric = ["v"] from rfl]
    simp only [List.filterMap]
    rw [hcells]
    norm_num [hvals]
    rfl
  exact ⟨hq1, hq3, by rw [hq1, hq3]; norm_num, by rw [hentries, hinfo],
    by norm_num [valGt], by norm_num [valLt]⟩

/-- A table whose five rows contain one full-row duplicate, giving a
duplicate percentage of 20. -/
def dupDemoDf : DataFrame :=
  ⟨["c"], [.text], [[.str "a"], [.str "a"], [.str "b"], [.str "c"], [.str "d"]]⟩

/-- C7 counterexample: the duplicate percentage 20 is strictly greater
than 5, yet the flag list carries only HIGH DUPLICATES — no MODERATE
DUPLICATES flag is generated, because the source's elif reaches the
moderate branch only when the high branch fails. -/
theorem moderate_duplicates_iff_fails :
    (analyze_data_quality dupDemoDf).duplicates.duplicate_percentage = some 20 ∧
      (5 : ℚ) < 20 ∧
      (analyze_data_quality dupDemoDf).summary_flags = [Flag.highDuplicates 20] := by
  have hdp :
      (npDiv (dupRowCount dupDemoDf) dupDemoDf.nrows).map (· * 100) = some 20 := by
    rw [show dupRowCount dupDemoDf = 1 from by decide]
    norm_num [npDiv, dupDemoDf, DataFrame.nrows]
  have hmp : missingPcts dupDemoDf = [("c", some 0)] := by
    simp only [missingPcts, show dupDemoDf.cols = ["c"] from rfl,
      show missingCount (colCells dupDemoDf "c") = 0 from by decide,
      show dupDemoDf.nrows = 5 from rfl, List.map_cons, List.map_nil]
    norm_num [npDiv]
  have houtl : outlierEntries dupDemoDf = [] := by decide
  have hinc : inconsistencyEntries dupDemoDf = [] := by decide
  refine ⟨hdp, by norm_num, ?_⟩
  show generateFlags (missingPcts dupDemoDf)
      ((npDiv (dupRowCount dupDemoDf) dupDemoDf.nrows).map (· * 100))
      (outlierEntries dupDemoDf) (inconsistencyEntries dupDemoDf) = _
  rw [hmp, hdp, houtl, hinc]
  norm_num [generateFlags, missingFlagsFor, dupFlagsFor]

theorem mem_missingPart (f : Flag) (missing : List (String × Option ℚ)) :
    (f ∈ missing.flatMap fun e => missingFlagsFor e.1 e.2) ↔
      ∃ c q, (c, some q) ∈ missing ∧
        ((50 < q ∧ f = .highMissing c q) ∨ (¬ 50 < q ∧ 20 < q ∧ f = .moderateMissing c q)) := by
  simp only [List.mem_flatMap]
  constructor
  · rintro ⟨⟨c, po⟩, hmem, hf⟩
    cases po with
    | none => simp [missingFlagsFor] at hf
    | some q =>
      refine ⟨c, q, hmem, ?_⟩
      simp only [missingFlagsFor] at hf
      split_ifs at hf with h50 h20
      · simp only [List.mem_singleton] at hf
        exact Or.inl ⟨h50, hf⟩
      · simp only [List.mem_singleton] at hf
        exact Or.inr ⟨h50, h20, hf⟩
      · simp at hf
  · rintro ⟨c, q, hmem, hcase⟩
    refine ⟨(c, some q), hmem, ?_⟩
    rcases hcase with ⟨h50, rfl⟩ | ⟨h50, h20, rfl⟩
    · simp [missingFlagsFor, h50]
    · simp [missingFlagsFor, h50, h20]

theorem mem_dupPart (f : Flag) (dup : Option ℚ) :
    f ∈ dupFlagsFor dup ↔
      ∃ q, dup = some q ∧
        ((10 < q ∧ f = .highDuplicates q) ∨ (¬ 10 < q ∧ 5 < q ∧ f = .moderateDuplicates q)) := by
  cases dup with
  | none => simp [dupFlagsFor]
  | some q =>
    simp only [dupFlagsFor, Option.some.injEq]
    constructor
    · intro hf
      split_ifs at hf with h10 h5
      · simp only [List.mem_singleton] at hf
        exact ⟨q, rfl, Or.inl ⟨h10, hf⟩⟩
      · simp only [List.mem_singleton] at hf
        exact ⟨q, rfl, Or.inr ⟨h10, h5, hf⟩⟩
      · simp at hf
    · rintro ⟨q', rfl, hcase⟩
      rcases hcase with ⟨h10, rfl⟩ | ⟨h10, h5, rfl⟩
      · simp [h10]
      · simp [h10, h5]

theorem mem_outlierPart (f : Flag) (outl : List (String × OutlierInfo)) :
    (f ∈ outl.flatMap fun e => outlierFlagsFor e.1 e.2.outlier_percentage) ↔
      ∃ c info q, (c, info) ∈ outl ∧ info.outlier_percentage = some q ∧ 10 < q ∧
        f = .highOutliers c q := by
  simp only [List.mem_flatMap]
  constructor
  · rintro ⟨⟨c, info⟩, hmem, hf⟩
    rcases hp : info.outlier_percentage with _ | q
    · rw [hp] at hf
      simp [outlierFlagsFor] at hf
    · rw [hp] at hf
      simp only [outlierFlagsFor] at hf
      split_ifs at hf with h10
      · simp only [List.mem_singleton] at hf
        exact ⟨c, info, q, hmem, hp, h10, hf⟩
      · simp at hf
  · rintro ⟨c, info, q, hmem, hp, h10, rfl⟩
    exact ⟨(c, info), hmem, by simp [outlierFlagsFor, hp, h10]⟩

theorem mem_inconsPart (f : Flag) (inc : List (String × ℕ)) :
    (f ∈ inc.map fun p => Flag.inconsistency p.1 p.2) ↔
      ∃ i n, (i, n) ∈ inc ∧ f = .inconsistency i n := by
  simp only [List.mem_map]
  constructor
  · rintro ⟨⟨i, n⟩, hmem, rfl⟩
    exact ⟨i, n, hmem, rfl⟩
  · rintro ⟨i, n, hmem, rfl⟩
    exact ⟨(i, n), hmem, rfl⟩

/-- C7 (amended): flag generation uses strict thresholds with elif
priority — HIGH MISSING iff the column's percentage is strictly above 50,
MODERATE MISSING iff strictly above 20 and not above 50 (so exactly 50.0%
missing yields MODERATE, 51% yields HIGH), HIGH DUPLICATES iff strictly
above 10, MODERATE DUPLICATES iff strictly above 5 and not above 10, HIGH
OUTLIERS iff strictly above 10; and the flag list is empty exactly when no
threshold triggers and there are no inconsistencies. -/
theorem flag_threshold_spec (missing : List (String × Option ℚ)) (dup : Option ℚ)
    (outl : List (String × OutlierInfo)) (inc : List (String × ℕ)) :
    (∀ c p, Flag.highMissing c p ∈ generateFlags missing dup outl inc ↔
      (c, some p) ∈ missing ∧ 50 < p) ∧
    (∀ c p, Flag.moderateMissing c p ∈ generateFlags missing dup outl inc ↔
      (c, some p) ∈ missing ∧ 20 < p ∧ ¬ 50 < p) ∧
    (∀ p, Flag.highDuplicates p ∈ generateFlags missing dup outl inc ↔
      dup = some p ∧ 10 < p) ∧
    (∀ p, Flag.moderateDuplicates p ∈ generateFlags missing dup outl inc ↔
      dup = some p ∧ 5 < p ∧ ¬ 10 < p) ∧
    (∀ c p, Flag.highOutliers c p ∈ generateFlags missing dup outl inc ↔
      (∃ info, (c, info) ∈ outl ∧ info.outlier_percentage = some p) ∧ 10 < p) ∧
    (generateFlags missing dup outl inc = [] ↔
      (∀ c q, (c, some q) ∈ missing → ¬ 20 < q) ∧ (∀ q, dup = some q → ¬ 5 < q) ∧
        (∀ c info q, (c, info) ∈ outl → info.outlier_percentage = some q → ¬ 10 < q) ∧
        inc = []) := by
  refine ⟨?_, ?_, ?_, ?_, ?_, ?_⟩
  · intro c p
    simp only [generateFlags, List.mem_append, or_assoc, mem_missingPart, mem_dupPart,
      mem_outlierPart, mem_inconsPart]
    constructor
    · rintro (⟨c', q, hmem, hcase⟩ | ⟨q, rfl, hcase⟩ | ⟨c', info, q, _, _, _, h⟩ |
        ⟨i, n, _, h⟩)
      · rcases hcase with ⟨h50, heq⟩ | ⟨_, _, heq⟩
        · obtain ⟨rfl, rfl⟩ := Flag.highMissing.inj heq
          exact ⟨hmem, h50⟩
        · cases heq
      · rcases hcase with ⟨_, heq⟩ | ⟨_, _, heq⟩ <;> cases heq
      · cases h
      · cases h
    · rintro ⟨hmem, h50⟩
      exact Or.inl ⟨c, p, hmem, Or.inl ⟨h50, rfl⟩⟩
  · intro c p
    simp only [generateFlags, List.mem_append, or_assoc, mem_missingPart, mem_dupPart,
      mem_outlierPart, mem_inconsPart]
    constructor
    · rintro (⟨c', q, hmem, hcase⟩ | ⟨q, rfl, hcase⟩ | ⟨c', info, q, _, _, _, h⟩ |
        ⟨i, n, _, h⟩)
      · rcases hcase with ⟨_, heq⟩ | ⟨h50, h20, heq⟩
        · cases heq
        · obtain ⟨rfl, rfl⟩ := Flag.moderateMissing.inj heq
          exact ⟨hmem, h20, h50⟩
      · rcases hcase with ⟨_, heq⟩ | ⟨_, _, heq⟩ <;> cases heq
      · cases h
      · cases h
    · rintro ⟨hmem, h20, h50⟩
      exact Or.inl ⟨c, p, hmem, Or.inr ⟨h50, h20, rfl⟩⟩
  · intro p
    simp only [generateFlags, List.mem_append, or_assoc, mem_missingPart, mem_dupPart,
      mem_outlierPart, mem_inconsPart]
    constructor
    · rintro (⟨c', q, _, hcase⟩ | ⟨q, hdq, hcase⟩ | ⟨c', info, q, _, _, _, h⟩ |
        ⟨i, n, _, h⟩)
      · rcases hcase with ⟨_, heq⟩ | ⟨_, _, heq⟩ <;> cases heq
      · rcases hcase with ⟨h10, heq⟩ | ⟨_, _, heq⟩
        · obtain rfl := Flag.highDuplicates.inj heq
          exact ⟨hdq, h10⟩
        · cases heq
      · cases h
      · cases h
    · rintro ⟨hdq, h10⟩
      exact Or.inr (Or.inl ⟨p, hdq, Or.inl ⟨h10, rfl⟩⟩)
  · intro p
    simp only [generateFlags, List.mem_append, or_assoc, mem_missingPart, mem_dupPart,
      mem_outlierPart, mem_inconsPart]
    constructor
    · rintro (⟨c', q, _, hcase⟩ | ⟨q, hdq, hcase⟩ | ⟨c', info, q, _, _, _, h⟩ |
        ⟨i, n, _, h⟩)
      · rcases hcase with ⟨_, heq⟩ | ⟨_, _, heq⟩ <;> cases heq
      · rcases hcase with ⟨_, heq⟩ | ⟨h10, h5, heq⟩
        · cases heq
        · obtain rfl := Flag.moderateDuplicates.inj heq
          exact ⟨hdq, h5, h10⟩
      · cases h
      · cases h
    · rintro ⟨hdq, h5, h10⟩
      exact Or.inr (Or.inl ⟨p, hdq, Or.inr ⟨h10, h5, rfl⟩⟩)
  · intro c p
    simp only [generateFlags, List.mem_append, or_assoc, mem_missingPart, mem_dupPart,
      mem_outlierPart, mem_inconsPart]
    constructor
    · rintro (⟨c', q, _, hcase⟩ | ⟨q, _, hcase⟩ | ⟨c', info, q, hmem, hp, h10, heq⟩ |
        ⟨i, n, _, h⟩)
      · rcases hcase with ⟨_, heq⟩ | ⟨_, _, heq⟩ <;> cases heq
      · rcases hcase with ⟨_, heq⟩ | ⟨_, _, heq⟩ <;> cases heq
      · obtain ⟨rfl, rfl⟩ := Flag.highOutliers.inj heq
        exact ⟨⟨info, hmem, hp⟩, h10⟩
      · cases h
    · rintro ⟨⟨info, hmem, hp⟩, h10⟩
      exact Or.inr (Or.inr (Or.inl ⟨c, info, p, hmem, hp, h10, rfl⟩))
  · rw [generateFlags]
    rw [List.append_eq_nil, List.append_eq_nil, List.append_eq_nil]
    constructor
    · rintro ⟨⟨⟨hm, hd⟩, ho⟩, hi⟩
      refine ⟨?_, ?_, ?_, by simpa using hi⟩
      · intro c q hmem h20
        have : (Flag.moderateMissing c q ∈ missing.flatMap fun e => missingFlagsFor e.1 e.2) ∨
            (Flag.highMissing c q ∈ missing.flatMap fun e => missingFlagsFor e.1 e.2) := by
          by_cases h50 : 50 < q
          · exact Or.inr ((mem_missingPart _ _).mpr ⟨c, q, hmem, Or.inl ⟨h50, rfl⟩⟩)
          · exact Or.inl ((mem_missingPart _ _).mpr ⟨c, q, hmem, Or.inr ⟨h50, h20, rfl⟩⟩)
        rcases this with h | h <;> simp [hm] at h
      · intro q hdq h5
        have : Flag.moderateDuplicates q ∈ dupFlagsFor dup ∨
            Flag.highDuplicates q ∈ dupFlagsFor dup := by
          by_cases h10 : 10 < q
          · exact Or.inr ((mem_dupPart _ _).mpr ⟨q, hdq, Or.inl ⟨h10, rfl⟩⟩)
          · exact Or.inl ((mem_dupPart _ _).mpr ⟨q, hdq, Or.inr ⟨h10, h5, rfl⟩⟩)
        rcases this with h | h <;> simp [hd] at h
      · intro c info q hmem hp h10
        have : Flag.highOutliers c q ∈
            outl.flatMap fun e => outlierFlagsFor e.1 e.2.outlier_percentage :=
          (mem_outlierPart _ _).mpr ⟨c, info, q, hmem, hp, h10, rfl⟩
        simp [ho] at this
    · rintro ⟨hm, hd, ho, rfl⟩
      refine ⟨⟨⟨?_, ?_⟩, ?_⟩, by simp⟩
      · rw [List.flatMap_eq_nil_iff]
        rintro ⟨c, po⟩ hmem
        cases po with
        | none => simp [missingFlagsFor]
        | some q =>
          have h20 := hm c q hmem
          have h50 : ¬ 50 < q := by intro h; exact h20 (by linarith)
          simp [missingFlagsFor, h50, h20]
      · cases dup with
        | none => simp [dupFlagsFor]
        | some q =>
          have h5 := hd q rfl
          have h10 : ¬ 10 < q := by intro h; exact h5 (by linarith)
          simp [dupFlagsFor, h10, h5]
      · rw [List.flatMap_eq_nil_iff]
        rintro ⟨c, info⟩ hmem
        rcases hp : info.outlier_percentage with _ | q
        · simp [outlierFlagsFor]
        · simp [outlierFlagsFor, ho c info q hmem hp]

/-- C9: analyze_data_quality neither mutates the table nor depends on
anything but the table — threading the state through two successive runs,
the table after the first run is the input unchanged and both runs return
the same report. -/
theorem quality_analysis_pure_deterministic (df : DataFrame) :
    (analyze_data_quality_st df).2 = df ∧
      (analyze_data_quality_st (analyze_data_quality_st df).2).1 =
        (analyze_data_quality_st df).1 :=
  ⟨rfl, rfl⟩

/-- C10: a null cell is never counted as an outlier — the row count with
`df[col] < lb` or `df[col] > ub` equals the count over the non-null
values alone — and the outlier percentage divides that count by the full
row count of the table (including rows where the column is null), not by
the non-null count. -/
theorem outlier_nulls_and_denominator (nrows : ℕ) (cells : List Value) (lb ub : ℚ) :
    (cells.countP fun v => valLt v lb || valGt v ub) =
        ((numVals cells).countP fun q => decide (q < lb) || decide (ub < q)) ∧
      (outlierInfoFor nrows cells).outlier_percentage =
        (if nrows = 0 then none
          else some ((((numVals cells).countP fun q =>
              decide (q < (outlierInfoFor nrows cells).lower_bound) ||
                decide ((outlierInfoFor nrows cells).upper_bound < q)) : ℚ) / nrows * 100)) := by
  have hcnt : ∀ a b : ℚ, (cells.countP fun v => valLt v a || valGt v b) =
      ((numVals cells).countP fun q => decide (q < a) || decide (b < q)) := by
    intro a b
    induction cells with
    | nil => rfl
    | cons v vs ih =>
      cases v with
      | null =>
        rw [List.countP_cons, show numVals (Value.null :: vs) = numVals vs from rfl, ih]
        simp [valLt, valGt]
      | num q =>
        rw [show numVals (Value.num q :: vs) = q :: numVals vs from rfl,
          List.countP_cons, List.countP_cons, ih]
        rfl
      | str s =>
        rw [List.countP_cons, show numVals (Value.str s :: vs) = numVals vs from rfl, ih]
        simp [valLt, valGt]
  refine ⟨hcnt lb ub, ?_⟩
  show (npDiv ((cells.countP fun v =>
      valLt v (outlierInfoFor nrows cells).lower_bound ||
        valGt v (outlierInfoFor nrows cells).upper_bound) : ℚ) nrows).map (· * 100) = _
  rw [hcnt, npDiv]
  rcases eq_or_ne nrows 0 with h0 | h0
  · simp [h0]
  · have : ((nrows : ℚ)) ≠ 0 := by exact_mod_cast h0
    simp [this, h0]

end TM
